import Mathlib

/-!
Shallow embedding of `integration-testing/casperlabs_local_net/grpc_proxy.py`:
the interception engine (generic forwarding servicer, interceptor variants)
of the CasperLabs test proxy.  External primitives (blake2b, lz4, ed25519,
protobuf serialization, node registry) are parameters of the model.
-/

namespace GrpcProxy

/-- Byte strings are lists of naturals (each intended < 256). -/
abbrev Bytes := List Nat

/-- Lower-case hexadecimal digit for a value < 16, as in Python's `bytes.hex()`. -/
def hexDigitChar (n : Nat) : Char :=
  if n < 10 then Char.ofNat (48 + n) else Char.ofNat (87 + n)

/-- Two-digit lower-case hex rendering of one byte. -/
def byteHex (b : Nat) : String :=
  String.mk [hexDigitChar ((b % 256) / 16), hexDigitChar (b % 16)]

/-- Python's `bytes.hex()`: concatenation of two-digit lower-case hex per byte. -/
def bytesHex (bs : Bytes) : String :=
  String.join (bs.map byteHex)

/-- A Node Registry entry: proxy-facing coordinates of a node
(`node.proxy_host`, `node.server_proxy_port`, `node.kademlia_proxy_port`). -/
structure NodeEndpoint where
  proxy_host : String
  server_proxy_port : Nat
  kademlia_proxy_port : Nat
deriving DecidableEq, Repr

/-- A `Node` message of the discovery/gossip protocols: self-reported identity
and address (`id`, `host`, `protocol_port`, `discovery_port`). -/
structure PeerNode where
  id : Bytes
  host : String
  protocol_port : Nat
  discovery_port : Nat
deriving DecidableEq, Repr

/-- A discovery request carrying a `sender` node; `rest` stands for all
remaining request fields, untouched by the interceptor. -/
structure PingRequest where
  sender : PeerNode
  rest : Bytes
deriving DecidableEq, Repr

/-- The gossip `NewBlocks` request: announcing sender plus announced hashes. -/
structure NewBlocksRequest where
  sender : PeerNode
  block_hashes : List Bytes
deriving DecidableEq, Repr

/-! ### Interceptor base class (grpc_proxy.py lines 37-61) -/

/-- `Interceptor.pre_request`: identity on the request. -/
def interceptor_pre_request {Req : Type} (name : String) (request : Req) : Req :=
  request

/-- `Interceptor.post_request`: identity on the response. -/
def interceptor_post_request {Req Resp : Type} (name : String) (request : Req)
    (response : Resp) : Resp :=
  response

/-- `Interceptor.post_request_stream`: `yield from response`, the identity
on the response stream. -/
def interceptor_post_request_stream {Req Resp : Type} (name : String) (request : Req)
    (response : List Resp) : List Resp :=
  response

/-! ### LoggingInterceptor (lines 63-77): logs, then returns the input.
The emitted log line is modelled as the first component of the result. -/

/-- `LoggingInterceptor.pre_request`. -/
def logging_pre_request {Req : Type} (render : Req → String) (name : String)
    (request : Req) : String × Req :=
  ("PRE REQUEST: " ++ name ++ "(" ++ render request ++ ")", request)

/-- `LoggingInterceptor.post_request`. -/
def logging_post_request {Req Resp : Type} (renderReq : Req → String)
    (renderResp : Resp → String) (name : String) (request : Req)
    (response : Resp) : String × Resp :=
  ("POST REQUEST: " ++ name ++ "(" ++ renderReq request ++ ") => ("
      ++ renderResp response ++ ")", response)

/-- `LoggingInterceptor.post_request_stream`: logs once, then `yield from response`. -/
def logging_post_request_stream {Req Resp : Type} (renderReq : Req → String)
    (name : String) (request : Req) (response : List Resp) : String × List Resp :=
  ("POST REQUEST STREAM: " ++ name ++ "(" ++ renderReq request ++ ")", response)

/-! ### KademliaInterceptor (lines 80-127).
The registry lookup `self.node.cl_network.lookup_node` is external; it is a
parameter `lookup : String → Option NodeEndpoint`, keyed by the hex rendering
of the node id; an unknown identity raises, modelled as `none`. -/

/-- `KademliaInterceptor.pre_request`: look the sender's identity up and patch
its address fields to the proxy-facing coordinates; unknown identity fails. -/
def kademlia_pre_request (lookup : String → Option NodeEndpoint) (name : String)
    (request : PingRequest) : Option PingRequest :=
  match lookup (bytesHex request.sender.id) with
  | none => none
  | some node =>
      some { request with sender :=
        { request.sender with
            host := node.proxy_host
            protocol_port := node.server_proxy_port
            discovery_port := node.kademlia_proxy_port } }

/-- `KademliaInterceptor.post_request_stream`: for each streamed peer, look
its identity up and patch its address fields, yielding as it goes; an unknown
identity aborts the stream after the elements already yielded. -/
def kademlia_post_request_stream (lookup : String → Option NodeEndpoint)
    (name : String) : List PeerNode → List PeerNode × Option String
  | [] => ([], none)
  | r :: rest =>
      match lookup (bytesHex r.id) with
      | none => ([], some "KeyError")
      | some node =>
          let r1 := { r with
              host := node.proxy_host
              protocol_port := node.server_proxy_port
              discovery_port := node.kademlia_proxy_port }
          let tail := kademlia_post_request_stream lookup name rest
          (r1 :: tail.1, tail.2)

/-! ### Domain block (consensus.proto), as used by the GossipInterceptor. -/

/-- An approval carried by a deploy (public key plus signature bytes). -/
structure Approval where
  approver_public_key : Bytes
  signature : Bytes
deriving DecidableEq, Repr

/-- The embedded `deploy` message of a processed deploy; `rest` stands for
all its remaining fields, untouched by the interceptor. -/
structure InnerDeploy where
  approvals : List Approval
  rest : Bytes
deriving DecidableEq, Repr

/-- One entry of `block.body.deploys`; `rest` stands for its remaining
fields (cost, error message, ...), untouched by the interceptor. -/
structure ProcessedDeploy where
  deploy : InnerDeploy
  rest : Bytes
deriving DecidableEq, Repr

/-- `block.body`: the ordered list of processed deploys. -/
structure BlockBody where
  deploys : List ProcessedDeploy
deriving DecidableEq, Repr

/-- `block.header`; `rest` stands for all header fields other than
`body_hash`, untouched by the interceptor. -/
structure BlockHeader where
  body_hash : Bytes
  rest : Bytes
deriving DecidableEq, Repr

/-- `block.signature` (`sig_algorithm`, `sig`). -/
structure BlockSignature where
  sig_algorithm : String
  sig : Bytes
deriving DecidableEq, Repr

/-- A consensus `Block` message. -/
structure Block where
  block_hash : Bytes
  header : BlockHeader
  body : BlockBody
  signature : BlockSignature
deriving DecidableEq, Repr

/-- A `Chunk.Header` of the gossip chunked transfer. -/
structure ChunkHeader where
  compression_algorithm : String
  content_length : Nat
  original_content_length : Nat
deriving DecidableEq, Repr

/-- A `Chunk` message: the first chunk of a transfer carries `header`,
the second carries `data` (protobuf reads the unset part as defaults,
so the model keeps both fields). -/
structure Chunk where
  header : ChunkHeader
  data : Bytes
deriving DecidableEq, Repr

/-- The external primitives the GossipInterceptor calls: protobuf
serialization, `blake2b_hash`, ed25519 signing with the proxy's key,
`lz4.block.compress`/`decompress` and `Block.ParseFromString`.
These live in libraries outside this repository, so they are parameters. -/
structure GossipEnv where
  serializeBody : BlockBody → Bytes
  serializeHeader : BlockHeader → Bytes
  serializeBlock : Block → Bytes
  blake2b : Bytes → Bytes
  sign : Bytes → Bytes → Bytes
  compress : Bytes → Bytes
  decompress : Bytes → Nat → Option Bytes
  parseBlock : Bytes → Option Block
  privateKey : Bytes

/-- The block mutation of `GossipInterceptor.post_request_stream`
(lines 181-189): strip all approvals from the first deploy, then recompute
`header.body_hash`, `block_hash` and the ed25519 signature, in that order.
An empty deploy list raises `IndexError`, modelled as `none`. -/
def mutate_block (env : GossipEnv) (block : Block) : Option Block :=
  match block.body.deploys with
  | [] => none
  | d :: ds =>
      let body := BlockBody.mk ({ d with deploy := { d.deploy with approvals := [] } } :: ds)
      let header := { block.header with body_hash := env.blake2b (env.serializeBody body) }
      let block_hash := env.blake2b (env.serializeHeader header)
      some { block_hash := block_hash
             header := header
             body := body
             signature := { sig_algorithm := "ed25519"
                            sig := env.sign env.privateKey block_hash } }

/-- One log record of the gossip stream hook, in emission order:
the entry line with the operation name and the rendered request, the
hexified first-chunk header, the data length of the second chunk, and the
per-element line of the passthrough branch. -/
inductive LogEntry where
  | streamStart (name : String) (request_hex : String)
  | chunkHeaderLog (h : ChunkHeader)
  | chunkDataLen (n : Nat)
  | streamElem (name : String) (c : Chunk)
deriving DecidableEq, Repr

/-- `GossipInterceptor.post_request_stream` (lines 164-203), run to
completion on a finite upstream stream: returns the log records, the
yielded elements, and `some` abnormal-termination tag when the generator
raises.  For `GetBlockChunked` it pulls the first two chunks, decompresses,
parses, mutates and re-signs the block, recompresses, patches the chunk
lengths and payload and yields the two patched chunks; every failure
happens before the first yield.  Other operations pass elements through. -/
def gossip_post_request_stream (env : GossipEnv) (name : String)
    (request_hex : String) (response : List Chunk) :
    List LogEntry × List Chunk × Option String :=
  let log0 := [LogEntry.streamStart name request_hex]
  if name = "GetBlockChunked" then
    match response with
    | [] => (log0, [], some "StopIteration")
    | [c1] => (log0 ++ [LogEntry.chunkHeaderLog c1.header], [], some "StopIteration")
    | c1 :: c2 :: _ =>
        let log1 := log0 ++ [LogEntry.chunkHeaderLog c1.header,
                             LogEntry.chunkDataLen c2.data.length]
        match env.decompress c2.data c1.header.original_content_length with
        | none => (log1, [], some "lz4.block.decompress")
        | some uncompressed_block_data =>
            match env.parseBlock uncompressed_block_data with
            | none => (log1, [], some "Block.ParseFromString")
            | some block =>
                match mutate_block env block with
                | none => (log1, [], some "IndexError")
                | some newBlock =>
                    let new_data := env.serializeBlock newBlock
                    let compressed_new_data := env.compress new_data
                    let c1out := { c1 with header :=
                      { c1.header with
                          original_content_length := new_data.length
                          content_length := compressed_new_data.length } }
                    let c2out := { c2 with data := compressed_new_data }
                    (log1, [c1out, c2out], none)
  else
    (log0 ++ response.map (fun r => LogEntry.streamElem name r), response, none)

/-- `GossipInterceptor.pre_request` (lines 133-156): on `NewBlocks`, look
the sender's identity up in the registry and patch its address fields to the
proxy-facing coordinates (unknown identity fails); any other operation's
request is returned unchanged. -/
def gossip_pre_request (lookup : String → Option NodeEndpoint) (name : String)
    (request : NewBlocksRequest) : Option NewBlocksRequest :=
  if name = "NewBlocks" then
    match lookup (bytesHex request.sender.id) with
    | none => none
    | some sender =>
        some { request with sender :=
          { request.sender with
              host := sender.proxy_host
              protocol_port := sender.server_proxy_port
              discovery_port := sender.kademlia_proxy_port } }
  else
    some request

/-! ### ProxyServicer (lines 206-288): generic forwarding by method name. -/

/-- Python's `str.startswith`: the first characters of `s` are exactly `p`. -/
def strStartsWith (s p : String) : Bool :=
  s.data.take p.data.length == p.data

/-- Python's `str.endswith`: the last characters of `s` are exactly `p`. -/
def strEndsWith (s p : String) : Bool :=
  s.data.drop (s.data.length - p.data.length) == p.data

/-- `ProxyServicer.is_unary_stream` (lines 256-257). -/
def is_unary_stream (method_name : String) : Bool :=
  strStartsWith method_name "Stream" || strEndsWith method_name "Chunked"

/-- The interceptor capability set bound to a servicer, as pure hooks. -/
structure InterceptorModel (Req Resp : Type) where
  pre_request : String → Req → Req
  post_request : String → Req → Resp → Resp
  post_request_stream : String → Req → List Resp → List Resp

/-- The `unary_unary` handler of `ProxyServicer.__getattr__` (lines 262-270):
preprocess, invoke the upstream method, postprocess. -/
def unary_unary {Req Resp : Type} (i : InterceptorModel Req Resp)
    (upstream : String → Req → Resp) (name : String) (request : Req) : Resp :=
  let preprocessed_request := i.pre_request name request
  let response := upstream name preprocessed_request
  i.post_request name preprocessed_request response

/-- The `unary_stream` handler of `ProxyServicer.__getattr__` (lines 272-280):
preprocess, invoke the upstream streaming method, forward the post-processed
stream. -/
def unary_stream {Req Resp : Type} (i : InterceptorModel Req Resp)
    (upstream : String → Req → List Resp) (name : String) (request : Req) :
    List Resp :=
  let preprocessed_request := i.pre_request name request
  let response_stream := upstream name preprocessed_request
  i.post_request_stream name preprocessed_request response_stream

/-- `ProxyServicer.__getattr__` (line 282): dispatch the named method to the
streaming handler when `is_unary_stream` holds, to the unary handler
otherwise. -/
def proxy_getattr {Req Resp : Type} (i : InterceptorModel Req Resp)
    (upstreamUnary : String → Req → Resp)
    (upstreamStream : String → Req → List Resp)
    (name : String) (request : Req) : Resp ⊕ List Resp :=
  if is_unary_stream name then
    Sum.inr (unary_stream i upstreamStream name request)
  else
    Sum.inl (unary_unary i upstreamUnary name request)

/-! ### Concrete fixtures used by witnesses. -/

/-- A concrete chunk header. -/
def wHeader : ChunkHeader :=
  { compression_algorithm := "lz4", content_length := 3, original_content_length := 4 }

/-- A concrete approval. -/
def wApproval : Approval := { approver_public_key := [1, 2], signature := [3, 4] }

/-- A concrete one-deploy block carrying one approval. -/
def wBlock : Block :=
  { block_hash := [5]
    header := { body_hash := [6], rest := [7] }
    body := { deploys := [{ deploy := { approvals := [wApproval], rest := [8] }, rest := [9] }] }
    signature := { sig_algorithm := "old", sig := [10] } }

/-- A concrete gossip environment whose compression is the identity, so the
round trip `decompress (compress x) (length x) = some x` holds definitionally. -/
def wEnv : GossipEnv :=
  { serializeBody := fun b => [b.deploys.length, 11]
    serializeHeader := fun h => h.body_hash ++ h.rest
    serializeBlock := fun b => b.block_hash ++ b.header.body_hash ++ b.signature.sig
    blake2b := fun bs => 90 :: bs
    sign := fun key msg => key ++ msg
    compress := fun bs => bs
    decompress := fun bs _ => some bs
    parseBlock := fun _ => some wBlock
    privateKey := [42] }

/-- A gossip environment whose decompression always fails, exhibiting the
behaviour of `lz4.block.decompress` on corrupt input. -/
def wEnvBad : GossipEnv :=
  { wEnv with decompress := fun _ _ => none }

/-- A concrete chunk. -/
def wChunk1 : Chunk := { header := wHeader, data := [] }

/-- A second concrete chunk, carrying compressed payload bytes. -/
def wChunk2 : Chunk := { header := { wHeader with content_length := 0 }, data := [20, 21, 22, 23] }

/-- A concrete registry with two known identities. -/
def wLookup : String → Option NodeEndpoint := fun s =>
  if s = bytesHex [1] then
    some { proxy_host := "proxy-1", server_proxy_port := 100, kademlia_proxy_port := 101 }
  else if s = bytesHex [2] then
    some { proxy_host := "proxy-2", server_proxy_port := 200, kademlia_proxy_port := 201 }
  else
    none

/-- A concrete peer announcing identity `[1]` at its real address. -/
def wPeer1 : PeerNode := { id := [1], host := "node-1", protocol_port := 10, discovery_port := 11 }

/-- A concrete peer announcing identity `[2]` at its real address. -/
def wPeer2 : PeerNode := { id := [2], host := "node-2", protocol_port := 20, discovery_port := 21 }

/-- A concrete interceptor instance over naturals. -/
def wInterceptor : InterceptorModel Nat Nat :=
  { pre_request := fun _ r => r + 1
    post_request := fun _ _ resp => resp * 2
    post_request_stream := fun _ _ s => s ++ [0] }

/-- A concrete unary upstream over naturals. -/
def wUpstreamUnary : String → Nat → Nat := fun _ r => r + 10

/-- A concrete streaming upstream over naturals. -/
def wUpstreamStream : String → Nat → List Nat := fun _ r => [r, r]

/-! ### Claims -/

/-- C6: for every method name, request, response and stream, the base
`Interceptor`'s `pre_request`, `post_request` and `post_request_stream` are
identities, and the `LoggingInterceptor`'s three hooks return their input
unchanged (observe-only: only a log line is added). -/
theorem interceptor_passthrough_identities {Req Resp : Type}
    (renderReq : Req → String) (renderResp : Resp → String)
    (name : String) (request : Req) (response : Resp) (stream : List Resp) :
    interceptor_pre_request name request = request ∧
    interceptor_post_request name request response = response ∧
    interceptor_post_request_stream name request stream = stream ∧
    (logging_pre_request renderReq name request).2 = request ∧
    (logging_post_request renderReq renderResp name request response).2 = response ∧
    (logging_post_request_stream renderReq name request stream).2 = stream :=
  ⟨rfl, rfl, rfl, rfl, rfl, rfl⟩

/-- C7: `is_unary_stream` holds exactly when the method name starts with
`"Stream"` or ends with `"Chunked"`, and `ProxyServicer.__getattr__`
dispatches such names to the streaming pipeline (`pre_request`, upstream
invoke, `post_request_stream`) and all others to the unary pipeline
(`pre_request`, upstream invoke, `post_request`). -/
theorem proxy_dispatch_by_naming {Req Resp : Type} (i : InterceptorModel Req Resp)
    (upstreamUnary : String → Req → Resp)
    (upstreamStream : String → Req → List Resp)
    (name : String) (request : Req) :
    (is_unary_stream name = true ↔
      (strStartsWith name "Stream" = true ∨ strEndsWith name "Chunked" = true)) ∧
    (is_unary_stream name = true →
      proxy_getattr i upstreamUnary upstreamStream name request =
        Sum.inr (i.post_request_stream name (i.pre_request name request)
          (upstreamStream name (i.pre_request name request)))) ∧
    (is_unary_stream name = false →
      proxy_getattr i upstreamUnary upstreamStream name request =
        Sum.inl (i.post_request name (i.pre_request name request)
          (upstreamUnary name (i.pre_request name request)))) := by
  refine ⟨?_, ?_, ?_⟩
  · simp [is_unary_stream]
  · intro h
    simp [proxy_getattr, h, unary_stream]
  · intro h
    simp [proxy_getattr, h, unary_unary]

/-- Witness for C7 at the concrete method names `GetBlockChunked` (streaming)
and `NewBlocks` (unary). -/
theorem proxy_dispatch_by_naming_witness :
    proxy_getattr wInterceptor wUpstreamUnary wUpstreamStream "GetBlockChunked" 5 =
      Sum.inr (wInterceptor.post_request_stream "GetBlockChunked"
        (wInterceptor.pre_request "GetBlockChunked" 5)
        (wUpstreamStream "GetBlockChunked" (wInterceptor.pre_request "GetBlockChunked" 5))) ∧
    proxy_getattr wInterceptor wUpstreamUnary wUpstreamStream "NewBlocks" 5 =
      Sum.inl (wInterceptor.post_request "NewBlocks"
        (wInterceptor.pre_request "NewBlocks" 5)
        (wUpstreamUnary "NewBlocks" (wInterceptor.pre_request "NewBlocks" 5))) :=
  ⟨(proxy_dispatch_by_naming wInterceptor wUpstreamUnary wUpstreamStream
      "GetBlockChunked" 5).2.1 (by decide),
   (proxy_dispatch_by_naming wInterceptor wUpstreamUnary wUpstreamStream
      "NewBlocks" 5).2.2 (by decide)⟩

/-- C1: on the GetBlockChunked mutation path, whenever the data chunk
decompresses and parses into a block with at least one deploy, the mutated
block has zero approvals on its first deploy, its `header.body_hash` is the
blake2b digest of the serialized mutated body, its `block_hash` is the
blake2b digest of the serialized header (which embeds the new body hash),
and its signature is an ed25519-tagged signature over `block_hash` under the
proxy's private key; the emitted data chunk carries the recompressed
serialization of exactly this block.  The equations are stated in terms of
the mutated block's own fields, so each derived field is computed from the
already-recomputed previous one (body hash, then block hash, then
signature). -/
theorem get_block_chunked_resigning (env : GossipEnv) (request_hex : String)
    (c1 c2 : Chunk) (rest : List Chunk) (u : Bytes) (block : Block)
    (d : ProcessedDeploy) (ds : List ProcessedDeploy)
    (h1 : env.decompress c2.data c1.header.original_content_length = some u)
    (h2 : env.parseBlock u = some block)
    (h3 : block.body.deploys = d :: ds) :
    ∃ nb : Block,
      mutate_block env block = some nb ∧
      (∃ d0 ds0, nb.body.deploys = d0 :: ds0 ∧ d0.deploy.approvals = []) ∧
      nb.header.body_hash = env.blake2b (env.serializeBody nb.body) ∧
      nb.block_hash = env.blake2b (env.serializeHeader nb.header) ∧
      nb.signature.sig = env.sign env.privateKey nb.block_hash ∧
      nb.signature.sig_algorithm = "ed25519" ∧
      (gossip_post_request_stream env "GetBlockChunked" request_hex
          (c1 :: c2 :: rest)).2 =
        ([{ c1 with header := { c1.header with
              original_content_length := (env.serializeBlock nb).length
              content_length := (env.compress (env.serializeBlock nb)).length } },
          { c2 with data := env.compress (env.serializeBlock nb) }], none) := by
  obtain ⟨bh0, hd0, bd0, sg0⟩ := block
  obtain ⟨deps⟩ := bd0
  change deps = d :: ds at h3
  subst h3
  refine ⟨_, rfl, ⟨_, _, rfl, rfl⟩, rfl, rfl, rfl, rfl, ?_⟩
  simp [gossip_post_request_stream, h1, h2, mutate_block]

/-- Witness for C1 at a concrete environment, chunk pair and one-deploy,
one-approval block. -/
theorem get_block_chunked_resigning_witness :
    ∃ nb : Block,
      mutate_block wEnv wBlock = some nb ∧
      (∃ d0 ds0, nb.body.deploys = d0 :: ds0 ∧ d0.deploy.approvals = []) ∧
      nb.header.body_hash = wEnv.blake2b (wEnv.serializeBody nb.body) ∧
      nb.block_hash = wEnv.blake2b (wEnv.serializeHeader nb.header) ∧
      nb.signature.sig = wEnv.sign wEnv.privateKey nb.block_hash ∧
      nb.signature.sig_algorithm = "ed25519" ∧
      (gossip_post_request_stream wEnv "GetBlockChunked" "req"
          (wChunk1 :: wChunk2 :: [])).2 =
        ([{ wChunk1 with header := { wChunk1.header with
              original_content_length := (wEnv.serializeBlock nb).length
              content_length := (wEnv.compress (wEnv.serializeBlock nb)).length } },
          { wChunk2 with data := wEnv.compress (wEnv.serializeBlock nb) }], none) :=
  get_block_chunked_resigning wEnv "req" wChunk1 wChunk2 [] wChunk2.data wBlock
    { deploy := { approvals := [wApproval], rest := [8] }, rest := [9] } []
    rfl rfl rfl

/-- C9: when the upstream stream for GetBlockChunked has fewer than two
elements, the hook raises (abnormal termination tag) and yields nothing. -/
theorem chunked_short_stream_fails (env : GossipEnv) (request_hex : String)
    (response : List Chunk) (h : response.length < 2) :
    ∃ log, gossip_post_request_stream env "GetBlockChunked" request_hex response
      = (log, [], some "StopIteration") := by
  match response, h with
  | [], _ => exact ⟨_, rfl⟩
  | [c1], _ => exact ⟨_, rfl⟩

/-- Witness for C9 at the empty upstream stream. -/
theorem chunked_short_stream_fails_witness :
    ∃ log, gossip_post_request_stream wEnv "GetBlockChunked" "req" []
      = (log, [], some "StopIteration") :=
  chunked_short_stream_fails wEnv "req" [] (by decide)

/-- C4: when decompression of the data chunk fails, or the decompressed
bytes fail to parse as a block, the GetBlockChunked branch terminates
abnormally (surfaced as an RPC-layer error), zero elements have been
emitted, and the log holds the failing operation's name together with the
rendering of the header chunk's header and the data chunk's payload
length. -/
theorem chunked_failure_aborts (env : GossipEnv) (request_hex : String)
    (c1 c2 : Chunk) (rest : List Chunk)
    (h : env.decompress c2.data c1.header.original_content_length = none ∨
      (∃ u, env.decompress c2.data c1.header.original_content_length = some u ∧
        env.parseBlock u = none)) :
    ∃ e, gossip_post_request_stream env "GetBlockChunked" request_hex
        (c1 :: c2 :: rest) =
      ([LogEntry.streamStart "GetBlockChunked" request_hex,
        LogEntry.chunkHeaderLog c1.header,
        LogEntry.chunkDataLen c2.data.length], [], some e) ∧
      (e = "lz4.block.decompress" ∨ e = "Block.ParseFromString") := by
  rcases h with h | ⟨u, hu, hp⟩
  · exact ⟨_, by simp [gossip_post_request_stream, h], Or.inl rfl⟩
  · exact ⟨_, by simp [gossip_post_request_stream, hu, hp], Or.inr rfl⟩

/-- Witness for C4 on an environment whose decompression rejects the input. -/
theorem chunked_failure_aborts_witness :
    ∃ e, gossip_post_request_stream wEnvBad "GetBlockChunked" "req"
        (wChunk1 :: wChunk2 :: []) =
      ([LogEntry.streamStart "GetBlockChunked" "req",
        LogEntry.chunkHeaderLog wChunk1.header,
        LogEntry.chunkDataLen wChunk2.data.length], [], some e) ∧
      (e = "lz4.block.decompress" ∨ e = "Block.ParseFromString") :=
  chunked_failure_aborts wEnvBad "req" wChunk1 wChunk2 [] (Or.inl rfl)

/-- C8: for every gossip streaming operation other than GetBlockChunked,
the stream hook yields exactly the upstream elements, in arrival order,
logging each one before yielding it, and terminates normally. -/
theorem gossip_stream_passthrough (env : GossipEnv) (name request_hex : String)
    (response : List Chunk) (h : name ≠ "GetBlockChunked") :
    gossip_post_request_stream env name request_hex response =
      (LogEntry.streamStart name request_hex ::
        response.map (fun r => LogEntry.streamElem name r), response, none) := by
  simp [gossip_post_request_stream, h]

/-- Witness for C8 on a gossip streaming operation with a two-chunk stream. -/
theorem gossip_stream_passthrough_witness :
    gossip_post_request_stream wEnv "StreamAncestorBlockSummaries" "req"
        [wChunk1, wChunk2] =
      (LogEntry.streamStart "StreamAncestorBlockSummaries" "req" ::
        [wChunk1, wChunk2].map
          (fun r => LogEntry.streamElem "StreamAncestorBlockSummaries" r),
       [wChunk1, wChunk2], none) :=
  gossip_stream_passthrough wEnv "StreamAncestorBlockSummaries" "req"
    [wChunk1, wChunk2] (by decide)

/-- C2 as frozen is refuted: on an upstream stream with (at least) two
elements whose data chunk decompression fails, the GetBlockChunked branch
emits zero elements, not two. -/
theorem chunked_two_emission_counterexample :
    ¬ ((gossip_post_request_stream wEnvBad "GetBlockChunked" "req"
        [wChunk1, wChunk2]).2.1.length = 2) := by
  decide

/-- C2 (amended): the GetBlockChunked branch consumes exactly the first two
upstream elements — its result never depends on anything past them — and it
emits exactly two elements, the patched header chunk first and the patched
data chunk second, whenever the decompress/parse/mutate pipeline succeeds;
when the pipeline fails it emits zero elements. -/
theorem chunked_consumes_and_emits_two (env : GossipEnv) (request_hex : String)
    (c1 c2 : Chunk) (rest rest2 : List Chunk) :
    gossip_post_request_stream env "GetBlockChunked" request_hex
        (c1 :: c2 :: rest) =
      gossip_post_request_stream env "GetBlockChunked" request_hex
        (c1 :: c2 :: rest2) ∧
    (∀ out, (gossip_post_request_stream env "GetBlockChunked" request_hex
        (c1 :: c2 :: rest)).2 = (out, none) →
      ∃ hOut dOut, out = [{ c1 with header := hOut }, { c2 with data := dOut }]) ∧
    (∀ out e, (gossip_post_request_stream env "GetBlockChunked" request_hex
        (c1 :: c2 :: rest)).2 = (out, some e) →
      out = []) := by
  cases hdec : env.decompress c2.data c1.header.original_content_length with
  | none =>
      refine ⟨by simp [gossip_post_request_stream, hdec], ?_, ?_⟩
      · intro out hout
        simp [gossip_post_request_stream, hdec] at hout
      · intro out e hout
        simp [gossip_post_request_stream, hdec] at hout
        exact hout.1
  | some u =>
      cases hpb : env.parseBlock u with
      | none =>
          refine ⟨by simp [gossip_post_request_stream, hdec, hpb], ?_, ?_⟩
          · intro out hout
            simp [gossip_post_request_stream, hdec, hpb] at hout
          · intro out e hout
            simp [gossip_post_request_stream, hdec, hpb] at hout
            exact hout.1
      | some block =>
          cases hmb : mutate_block env block with
          | none =>
              refine ⟨by simp [gossip_post_request_stream, hdec, hpb, hmb], ?_, ?_⟩
              · intro out hout
                simp [gossip_post_request_stream, hdec, hpb, hmb] at hout
              · intro out e hout
                simp [gossip_post_request_stream, hdec, hpb, hmb] at hout
                exact hout.1
          | some nb =>
              refine ⟨by simp [gossip_post_request_stream, hdec, hpb, hmb], ?_, ?_⟩
              · intro out hout
                simp [gossip_post_request_stream, hdec, hpb, hmb] at hout
                exact ⟨_, _, hout.symm⟩
              · intro out e hout
                simp [gossip_post_request_stream, hdec, hpb, hmb] at hout

/-- Witness for C2's amended theorem: consumption of exactly two chunks and
two-element emission at a concrete successful instance. -/
theorem chunked_consumes_and_emits_two_witness :
    gossip_post_request_stream wEnv "GetBlockChunked" "req"
        (wChunk1 :: wChunk2 :: [wChunk1]) =
      gossip_post_request_stream wEnv "GetBlockChunked" "req"
        (wChunk1 :: wChunk2 :: []) ∧
    ∃ hOut dOut,
      (gossip_post_request_stream wEnv "GetBlockChunked" "req"
          (wChunk1 :: wChunk2 :: [wChunk1])).2.1 =
        [{ wChunk1 with header := hOut }, { wChunk2 with data := dOut }] :=
  ⟨(chunked_consumes_and_emits_two wEnv "req" wChunk1 wChunk2 [wChunk1] []).1,
   (chunked_consumes_and_emits_two wEnv "req" wChunk1 wChunk2 [wChunk1] []).2.1
     (gossip_post_request_stream wEnv "GetBlockChunked" "req"
        (wChunk1 :: wChunk2 :: [wChunk1])).2.1 (by decide)⟩

/-- C5: on the successful mutation path, the emitted header chunk's
`original_content_length` is overwritten with the length of the new
uncompressed serialization, its `content_length` with the length of the new
compressed payload, the emitted data chunk carries the recompressed
serialization, and — assuming the lz4 round trip — decompressing the
emitted payload at the emitted `original_content_length` yields exactly the
serialized mutated block. -/
theorem compression_round_trip (env : GossipEnv) (request_hex : String)
    (c1 c2 : Chunk) (rest : List Chunk) (u : Bytes) (block : Block)
    (d : ProcessedDeploy) (ds : List ProcessedDeploy)
    (h1 : env.decompress c2.data c1.header.original_content_length = some u)
    (h2 : env.parseBlock u = some block)
    (h3 : block.body.deploys = d :: ds)
    (hrt : ∀ x : Bytes, env.decompress (env.compress x) x.length = some x) :
    ∃ nb : Block,
      mutate_block env block = some nb ∧
      (gossip_post_request_stream env "GetBlockChunked" request_hex
          (c1 :: c2 :: rest)).2 =
        ([{ c1 with header := { c1.header with
              original_content_length := (env.serializeBlock nb).length
              content_length := (env.compress (env.serializeBlock nb)).length } },
          { c2 with data := env.compress (env.serializeBlock nb) }], none) ∧
      env.decompress (env.compress (env.serializeBlock nb))
          (env.serializeBlock nb).length = some (env.serializeBlock nb) := by
  obtain ⟨bh0, hd0, bd0, sg0⟩ := block
  obtain ⟨deps⟩ := bd0
  change deps = d :: ds at h3
  subst h3
  refine ⟨_, rfl, ?_, hrt _⟩
  simp [gossip_post_request_stream, h1, h2, mutate_block]

/-- Witness for C5 at a concrete environment whose compression is the
identity, so the round-trip hypothesis holds definitionally. -/
theorem compression_round_trip_witness :
    ∃ nb : Block,
      mutate_block wEnv wBlock = some nb ∧
      (gossip_post_request_stream wEnv "GetBlockChunked" "req"
          (wChunk1 :: wChunk2 :: [])).2 =
        ([{ wChunk1 with header := { wChunk1.header with
              original_content_length := (wEnv.serializeBlock nb).length
              content_length := (wEnv.compress (wEnv.serializeBlock nb)).length } },
          { wChunk2 with data := wEnv.compress (wEnv.serializeBlock nb) }], none) ∧
      wEnv.decompress (wEnv.compress (wEnv.serializeBlock nb))
          (wEnv.serializeBlock nb).length = some (wEnv.serializeBlock nb) :=
  compression_round_trip wEnv "req" wChunk1 wChunk2 [] wChunk2.data wBlock
    { deploy := { approvals := [wApproval], rest := [8] }, rest := [9] } []
    rfl rfl rfl (fun _ => rfl)

/-- Helper: when every identity of a streamed peer list resolves, the
kademlia stream hook terminates normally, yields one element per input, and
the element at each position is the input element with its address fields
replaced by the registry's proxy coordinates. -/
theorem kademlia_stream_all_resolved (lookup : String → Option NodeEndpoint)
    (name : String) :
    ∀ peers : List PeerNode, (∀ p ∈ peers, lookup (bytesHex p.id) ≠ none) →
      (kademlia_post_request_stream lookup name peers).2 = none ∧
      (kademlia_post_request_stream lookup name peers).1.length = peers.length ∧
      (∀ (i : Nat) (p : PeerNode) (np : NodeEndpoint), peers[i]? = some p → lookup (bytesHex p.id) = some np →
        (kademlia_post_request_stream lookup name peers).1[i]? =
          some { p with host := np.proxy_host
                        protocol_port := np.server_proxy_port
                        discovery_port := np.kademlia_proxy_port })
  | [], _ => by
      refine ⟨rfl, rfl, ?_⟩
      intro i p np hp
      simp at hp
  | r :: rest, h => by
      obtain ⟨nd, hnd⟩ : ∃ nd, lookup (bytesHex r.id) = some nd := by
        cases hl : lookup (bytesHex r.id) with
        | none => exact absurd hl (h r (List.mem_cons_self r rest))
        | some nd => exact ⟨nd, rfl⟩
      have ih := kademlia_stream_all_resolved lookup name rest
        (fun p hp => h p (List.mem_cons_of_mem r hp))
      have hunf : kademlia_post_request_stream lookup name (r :: rest) =
          ({ r with host := nd.proxy_host
                    protocol_port := nd.server_proxy_port
                    discovery_port := nd.kademlia_proxy_port } ::
            (kademlia_post_request_stream lookup name rest).1,
           (kademlia_post_request_stream lookup name rest).2) := by
        simp [kademlia_post_request_stream, hnd]
      refine ⟨?_, ?_, ?_⟩
      · rw [hunf]
        exact ih.1
      · rw [hunf]
        simpa using ih.2.1
      · intro i p np hp hnp
        rw [hunf]
        cases i with
        | zero =>
            simp only [List.getElem?_cons_zero, Option.some.injEq] at hp
            subst hp
            rw [hnp] at hnd
            injection hnd with e
            subst e
            simp
        | succ j =>
            simp only [List.getElem?_cons_succ] at hp ⊢
            exact ih.2.2 j p np hp hnp

/-- C3: for a discovery request whose sender identity resolves,
`KademliaInterceptor.pre_request` returns the request with the sender's
host, protocol port and discovery port exactly equal to the registry
entry's proxy host, server proxy port and kademlia proxy port;
`KademliaInterceptor.post_request_stream` applies the same substitution to
every element of a streamed peer list, one output per input in input order;
an identity that does not resolve fails the call. -/
theorem kademlia_address_rewrite (lookup : String → Option NodeEndpoint)
    (name : String) (request : PingRequest) (node : NodeEndpoint)
    (hreq : lookup (bytesHex request.sender.id) = some node)
    (peers : List PeerNode)
    (hpeers : ∀ p ∈ peers, lookup (bytesHex p.id) ≠ none)
    (badRequest : PingRequest)
    (hbad : lookup (bytesHex badRequest.sender.id) = none) :
    (∃ req1, kademlia_pre_request lookup name request = some req1 ∧
      req1.sender.host = node.proxy_host ∧
      req1.sender.protocol_port = node.server_proxy_port ∧
      req1.sender.discovery_port = node.kademlia_proxy_port) ∧
    ((kademlia_post_request_stream lookup name peers).2 = none ∧
      (kademlia_post_request_stream lookup name peers).1.length = peers.length ∧
      ∀ (i : Nat) (p : PeerNode) (np : NodeEndpoint), peers[i]? = some p → lookup (bytesHex p.id) = some np →
        (kademlia_post_request_stream lookup name peers).1[i]? =
          some { p with host := np.proxy_host
                        protocol_port := np.server_proxy_port
                        discovery_port := np.kademlia_proxy_port }) ∧
    kademlia_pre_request lookup name badRequest = none := by
  refine ⟨?_, kademlia_stream_all_resolved lookup name peers hpeers, ?_⟩
  · simp only [kademlia_pre_request, hreq]
    exact ⟨_, rfl, rfl, rfl, rfl⟩
  · simp [kademlia_pre_request, hbad]

/-- Witness for C3 at a concrete two-entry registry, a resolving request, a
two-peer stream and a non-resolving request. -/
theorem kademlia_address_rewrite_witness :
    (∃ req1, kademlia_pre_request wLookup "Ping" { sender := wPeer1, rest := [7] }
        = some req1 ∧
      req1.sender.host = "proxy-1" ∧
      req1.sender.protocol_port = 100 ∧
      req1.sender.discovery_port = 101) ∧
    ((kademlia_post_request_stream wLookup "Ping" [wPeer1, wPeer2]).2 = none ∧
      (kademlia_post_request_stream wLookup "Ping" [wPeer1, wPeer2]).1.length =
        [wPeer1, wPeer2].length ∧
      ∀ (i : Nat) (p : PeerNode) (np : NodeEndpoint), [wPeer1, wPeer2][i]? = some p →
        wLookup (bytesHex p.id) = some np →
        (kademlia_post_request_stream wLookup "Ping" [wPeer1, wPeer2]).1[i]? =
          some { p with host := np.proxy_host
                        protocol_port := np.server_proxy_port
                        discovery_port := np.kademlia_proxy_port }) ∧
    kademlia_pre_request wLookup "Ping"
      { sender := { wPeer1 with id := [3] }, rest := [] } = none :=
  kademlia_address_rewrite wLookup "Ping" { sender := wPeer1, rest := [7] }
    { proxy_host := "proxy-1", server_proxy_port := 100, kademlia_proxy_port := 101 }
    (by decide) [wPeer1, wPeer2] (by decide)
    { sender := { wPeer1 with id := [3] }, rest := [] } (by decide)

/-- C10: the address rewrites change only the host, protocol-port and
discovery-port fields: `KademliaInterceptor.pre_request` leaves the
sender's id and all remaining request fields unchanged;
`GossipInterceptor.pre_request` on `NewBlocks` leaves the sender's id and
`block_hashes` unchanged; on any other gossip method it returns the request
entirely unchanged. -/
theorem pre_request_frame_conditions (lookup : String → Option NodeEndpoint)
    (name : String) (request : PingRequest) (node : NodeEndpoint)
    (hreq : lookup (bytesHex request.sender.id) = some node)
    (greq : NewBlocksRequest) (gnode : NodeEndpoint)
    (hg : lookup (bytesHex greq.sender.id) = some gnode)
    (otherName : String) (hother : otherName ≠ "NewBlocks")
    (greq2 : NewBlocksRequest) :
    (∃ req1, kademlia_pre_request lookup name request = some req1 ∧
      req1.sender.id = request.sender.id ∧ req1.rest = request.rest) ∧
    (∃ g1, gossip_pre_request lookup "NewBlocks" greq = some g1 ∧
      g1.sender.id = greq.sender.id ∧ g1.block_hashes = greq.block_hashes) ∧
    gossip_pre_request lookup otherName greq2 = some greq2 := by
  refine ⟨?_, ?_, ?_⟩
  · simp only [kademlia_pre_request, hreq]
    exact ⟨_, rfl, rfl, rfl⟩
  · simp only [gossip_pre_request, if_pos rfl, hg]
    exact ⟨_, rfl, rfl, rfl⟩
  · simp [gossip_pre_request, hother]

/-- Witness for C10 at a concrete registry, a discovery request, a
`NewBlocks` request and a different gossip method name. -/
theorem pre_request_frame_conditions_witness :
    (∃ req1, kademlia_pre_request wLookup "Ping" { sender := wPeer1, rest := [7] }
        = some req1 ∧
      req1.sender.id = ({ sender := wPeer1, rest := [7] } : PingRequest).sender.id ∧
      req1.rest = ({ sender := wPeer1, rest := [7] } : PingRequest).rest) ∧
    (∃ g1, gossip_pre_request wLookup "NewBlocks"
        { sender := wPeer2, block_hashes := [[15]] } = some g1 ∧
      g1.sender.id =
        ({ sender := wPeer2, block_hashes := [[15]] } : NewBlocksRequest).sender.id ∧
      g1.block_hashes =
        ({ sender := wPeer2, block_hashes := [[15]] } : NewBlocksRequest).block_hashes) ∧
    gossip_pre_request wLookup "GetBlockChunked"
      { sender := wPeer1, block_hashes := [] } =
        some { sender := wPeer1, block_hashes := [] } :=
  pre_request_frame_conditions wLookup "Ping" { sender := wPeer1, rest := [7] }
    { proxy_host := "proxy-1", server_proxy_port := 100, kademlia_proxy_port := 101 }
    (by decide) { sender := wPeer2, block_hashes := [[15]] }
    { proxy_host := "proxy-2", server_proxy_port := 200, kademlia_proxy_port := 201 }
    (by decide) "GetBlockChunked" (by decide)
    { sender := wPeer1, block_hashes := [] }

end GrpcProxy
